import Mathlib

/-!
Shallow embedding of the XenCRM campaign messaging pipeline:
the Response Consumer (responseProcessingConsumer.js), the Delivery
Producer (messageSendingService in messagingOrchestrator.js) and the
Vendor Simulator (mockReceiverService.js).

Timestamps are modelled as natural numbers; a JS `Date` constructed
from a present value is the value itself and `new Date()` is the
explicit `now` parameter.  Optional / possibly-absent JS fields are
`Option`s, and JS truthiness on strings is modelled by `strTruthy`
(absent and empty strings are falsy).
-/

/-- Status values stored in the `communication_log` table. -/
inductive CommStatus where
  | PENDING
  | PROCESSING
  | DELIVERED
  | FAILED
  deriving DecidableEq, Repr

/-- The `delivery_response` payload carried inside an outcome message,
as produced by mockReceiverService (SUCCESS / FAILED shapes) or by the
producer's error path (ERROR shape).  `status` is an open string on the
wire; absent fields are `none`. -/
structure DeliveryResponse where
  status : String
  vendor_ref : Option String
  error_code : Option String
  error_message : Option String
  retryable : Option Bool
  delivered_at : Option Nat
  failed_at : Option Nat
  cost : Option Nat
  deriving DecidableEq, Repr

/-- The outcome message published on the response channel
(`responseData` / `failedResponseData` in messageSendingService). -/
structure ResponseContent where
  communication_id : Option String
  campaign_id : Option String
  customer_id : Option String
  customer_email : Option String
  attempt_number : Option Nat
  delivery_response : Option DeliveryResponse
  processed_at : Option Nat
  deriving DecidableEq, Repr

/-- JS truthiness for an optional string: `undefined`, `null` and the
empty string are falsy. -/
def strTruthy : Option String → Bool
  | none => false
  | some s => !(s == "")

/-- The columns the consumer reads back for the retry decision
(`findUnique` with `select: { attempts, max_attempts }`). -/
structure CurrentLog where
  attempts : Nat
  max_attempts : Nat
  deriving DecidableEq, Repr

/-- `isRetryable` from updateCommunicationLog line 105: the response's
own retryable flag, or an ERROR response carrying code SYSTEM_ERROR. -/
def isRetryable (r : DeliveryResponse) : Bool :=
  r.retryable.getD false || (r.status == "ERROR" && r.error_code == some "SYSTEM_ERROR")

/-- The `updateData` record built by updateCommunicationLog.  A `none`
in `status` / `delivered_at` means the key is absent from the record,
so the corresponding column is left untouched by the update. -/
structure UpdateData where
  vendor_ref : Option String
  last_attempt_at : Nat
  status : Option CommStatus
  delivered_at : Option Nat
  deriving DecidableEq, Repr

/-- updateCommunicationLog's computation of `updateData`
(responseProcessingConsumer.js lines 84-124).  `currentLog` is the
result of the `findUnique` lookup performed on the FAILED/ERROR path. -/
def computeUpdateData (r : DeliveryResponse) (currentLog : Option CurrentLog) (now : Nat) :
    UpdateData :=
  let base : UpdateData :=
    { vendor_ref := r.vendor_ref, last_attempt_at := now, status := none, delivered_at := none }
  if r.status == "SUCCESS" then
    { base with
        status := some CommStatus.DELIVERED
        delivered_at := some (match r.delivered_at with | some t => t | none => now) }
  else if r.status == "FAILED" || r.status == "ERROR" then
    match currentLog with
    | some cur =>
        if isRetryable r && decide (cur.attempts < cur.max_attempts) then
          { base with status := some CommStatus.PENDING }
        else
          { base with status := some CommStatus.FAILED }
    | none => { base with status := some CommStatus.FAILED }
  else base

/-- A row of `delivery_receipts` as built by createDeliveryReceipt. -/
structure ReceiptData where
  communication_id : String
  vendor_ref : Option String
  receipt_status : String
  failure_reason : Option String
  received_at : Nat
  processed : Bool
  deriving DecidableEq, Repr

/-- createDeliveryReceipt's `receiptData` (lines 141-150): receipt
status DELIVERED exactly for SUCCESS, received_at from the first
present timestamp among delivered_at, failed_at, processed_at, else
now. -/
def createReceiptData (commId : String) (r : DeliveryResponse) (processedAt : Option Nat)
    (now : Nat) : ReceiptData :=
  { communication_id := commId
    vendor_ref := r.vendor_ref
    receipt_status := if r.status == "SUCCESS" then "DELIVERED" else "FAILED"
    failure_reason := r.error_message
    received_at := ((r.delivered_at.orElse fun _ => r.failed_at).orElse fun _ => processedAt).getD now
    processed := false }

/-- A row of `campaign_stats`. -/
structure CampaignStats where
  total_sent : Nat
  total_delivered : Nat
  total_failed : Nat
  deriving DecidableEq, Repr

/-- A row of `campaign_delivery_summary`.  Counts are integers because
the update path decrements `pending_count` unconditionally. -/
structure CampaignSummary where
  total_messages : Int
  pending_count : Int
  sent_count : Int
  delivered_count : Int
  failed_count : Int
  deriving DecidableEq, Repr

/-- updateCampaignStats' upsert on `campaign_stats` (lines 188-209):
`row = none` is the create branch. -/
def updateCampaignStatsRow (result : String) (row : Option CampaignStats) : CampaignStats :=
  match row with
  | some s =>
      { s with
          total_delivered :=
            if result == "delivered" then s.total_delivered + 1 else s.total_delivered
          total_failed :=
            if result == "failed" then s.total_failed + 1 else s.total_failed }
  | none =>
      { total_sent := 0
        total_delivered := if result == "delivered" then 1 else 0
        total_failed := if result == "failed" then 1 else 0 }

/-- updateCampaignStats' upsert on `campaign_delivery_summary`
(lines 212-238): the update branch bumps delivered/failed + sent and
decrements pending; the create branch starts with sent_count = 1. -/
def updateCampaignSummaryRow (result : String) (row : Option CampaignSummary) : CampaignSummary :=
  match row with
  | some s =>
      if result == "delivered" then
        { s with
            delivered_count := s.delivered_count + 1
            sent_count := s.sent_count + 1
            pending_count := s.pending_count - 1 }
      else if result == "failed" then
        { s with
            failed_count := s.failed_count + 1
            sent_count := s.sent_count + 1
            pending_count := s.pending_count - 1 }
      else s
  | none =>
      { total_messages := 0
        pending_count := 0
        sent_count := 1
        delivered_count := if result == "delivered" then 1 else 0
        failed_count := if result == "failed" then 1 else 0 }

/-- Which stats update processDeliveryResponse requests (lines 64-69):
`delivered` for SUCCESS, `failed` for FAILED or ERROR, nothing for
any other response status. -/
def statsAction (r : DeliveryResponse) : Option String :=
  if r.status == "SUCCESS" then some "delivered"
  else if r.status == "FAILED" || r.status == "ERROR" then some "failed"
  else none

/-- The database writes one successful pass of processDeliveryResponse
performs: the communication_log update record, the receipt row, and
the stats action (if any). -/
structure ConsumerEffects where
  logUpdate : UpdateData
  receipt : ReceiptData
  stats : Option String
  deriving DecidableEq, Repr

/-- processDeliveryResponse (lines 42-77).  Validation happens before
any database write, so a thrown validation error produces no effects;
an `Except.error` result here therefore carries no `ConsumerEffects`.
`currentLog` stands for the `findUnique` lookup the FAILED/ERROR path
performs. -/
def processDeliveryResponse (m : ResponseContent) (currentLog : Option CurrentLog) (now : Nat) :
    Except String ConsumerEffects :=
  if !(strTruthy m.communication_id) then
    Except.error "Invalid response format: missing communication_id"
  else
    match m.delivery_response with
    | none => Except.error "Invalid response format: missing delivery_response"
    | some r =>
        Except.ok
          { logUpdate := computeUpdateData r currentLog now
            receipt := createReceiptData (m.communication_id.getD "") r m.processed_at now
            stats := statsAction r }

/-- What the broker wrapper does with a handled message. -/
inductive AckAction where
  | ack
  | nack (multiple : Bool) (requeue : Bool)
  deriving DecidableEq, Repr

/-- consumeMessages' handler wrapper (rabbitmq.js lines 204-221):
ack on normal return, `nack(msg, false, false)` — no re-queue — when
the callback throws. -/
def handleMessage (result : Except String ConsumerEffects) : AckAction :=
  match result with
  | Except.ok _ => AckAction.ack
  | Except.error _ => AckAction.nack false false

/-- A row of the `communication_log` table as the producer sees it. -/
structure CommLog where
  communication_id : String
  campaign_id : String
  customer_id : String
  customer_email : String
  customer_name : String
  message_text : String
  status : CommStatus
  attempts : Nat
  max_attempts : Nat
  created_at : Nat
  last_attempt_at : Option Nat
  delivered_at : Option Nat
  vendor_ref : Option String
  deriving DecidableEq, Repr

/-- The `where` clause of the producer's fetch (messageSendingService
lines 236-241): status PENDING and attempts < max_attempts. -/
def pendingFilter (w : CommLog) : Bool :=
  decide (w.status = CommStatus.PENDING) && decide (w.attempts < w.max_attempts)

/-- Ordering used by the fetch's `orderBy created_at asc`. -/
def createdLE (a b : CommLog) : Prop := a.created_at ≤ b.created_at

instance : DecidableRel createdLE := fun a b => Nat.decLe a.created_at b.created_at

instance : IsTotal CommLog createdLE := ⟨fun a b => Nat.le_total a.created_at b.created_at⟩

instance : IsTrans CommLog createdLE := ⟨fun _ _ _ h1 h2 => Nat.le_trans h1 h2⟩

/-- `this.batchSize` of MessageSendingService. -/
def batchSize : Nat := 10

/-- The producer's per-cycle fetch (processPendingMessages, lines
235-260): qualifying rows, sorted by created_at ascending, limited to
`batchSize`. -/
def findPendingMessages (db : List CommLog) : List CommLog :=
  (List.insertionSort createdLE (db.filter pendingFilter)).take batchSize

/-- The fetch performed by the manual trigger (triggerProcessing,
lines 395-420), which repeats the same query verbatim. -/
def triggerProcessingFetch (db : List CommLog) : List CommLog :=
  (List.insertionSort createdLE (db.filter pendingFilter)).take batchSize

/-- The in-flight update of processMessageDelivery lines 281-292:
increment attempts, stamp last_attempt_at, set status PROCESSING. -/
def markProcessing (w : CommLog) (now : Nat) : CommLog :=
  { w with
      attempts := w.attempts + 1
      last_attempt_at := some now
      status := CommStatus.PROCESSING }

/-- The `responseData` message published after a vendor call
(lines 317-325). -/
def mkResponseData (w : CommLog) (r : DeliveryResponse) (now : Nat) : ResponseContent :=
  { communication_id := some w.communication_id
    campaign_id := some w.campaign_id
    customer_id := some w.customer_id
    customer_email := some w.customer_email
    attempt_number := some (w.attempts + 1)
    delivery_response := some r
    processed_at := some now }

/-- The `failedResponseData` message built on the producer's error
path (lines 345-358): its delivery_response carries only status ERROR,
error_code SYSTEM_ERROR, the error message and a timestamp — no
`retryable` field and no vendor_ref. -/
def mkFailedResponseData (w : CommLog) (errMessage : String) (now : Nat) : ResponseContent :=
  { communication_id := some w.communication_id
    campaign_id := some w.campaign_id
    customer_id := some w.customer_id
    customer_email := some w.customer_email
    attempt_number := some (w.attempts + 1)
    delivery_response := some
      { status := "ERROR"
        vendor_ref := none
        error_code := some "SYSTEM_ERROR"
        error_message := some errMessage
        retryable := none
        delivered_at := none
        failed_at := none
        cost := none }
    processed_at := some now }

/-- The observable steps of processMessageDelivery, in program order,
each paired with the database state of the item when the step runs:
the in-flight update completes first, then the vendor call, then the
publish of the outcome. -/
inductive PEvent where
  | dbUpdate
  | vendorCall
  | publish (outcome : ResponseContent)
  deriving DecidableEq, Repr

/-- Trace of one happy-path run of processMessageDelivery
(lines 278-339) for item `w`, with `r` the vendor's response. -/
def processMessageDeliverySteps (w : CommLog) (r : DeliveryResponse) (now : Nat) :
    List (PEvent × CommLog) :=
  let w1 := markProcessing w now
  [(PEvent.dbUpdate, w1), (PEvent.vendorCall, w1), (PEvent.publish (mkResponseData w r now), w1)]

/-- Applying the consumer's `updateData` to a row, with Prisma
semantics: keys absent from the record (`none` here for status,
delivered_at, vendor_ref) leave the column unchanged; `attempts` is
never part of the record. -/
def applyUpdate (w : CommLog) (u : UpdateData) : CommLog :=
  { w with
      vendor_ref := match u.vendor_ref with | some v => some v | none => w.vendor_ref
      last_attempt_at := some u.last_attempt_at
      status := u.status.getD w.status
      delivered_at := match u.delivered_at with | some t => some t | none => w.delivered_at }

/-- One mutation of a WorkItem row by the pipeline: either the
producer fetches it (guarded by the fetch filter, then the in-flight
update) or the consumer reconciles an outcome against it (the lookup
reading the row's current attempts / max_attempts). -/
inductive Step : CommLog → CommLog → Prop where
  | producerFetch (w : CommLog) (now : Nat)
      (hs : w.status = CommStatus.PENDING) (ha : w.attempts < w.max_attempts) :
      Step w (markProcessing w now)
  | consumerReconcile (w : CommLog) (r : DeliveryResponse) (now : Nat) :
      Step w (applyUpdate w (computeUpdateData r (some ⟨w.attempts, w.max_attempts⟩) now))

/-- The payload handed to the vendor simulator (lines 295-307). -/
structure MessagePayload where
  communication_id : String
  campaign_id : String
  customer_id : String
  customer_email : String
  customer_name : String
  message_text : String
  attempt_number : Nat
  max_attempts : Nat
  deriving DecidableEq, Repr

/-- calculateMessageCost (mockReceiverService.js lines 165-173): base
cost 1, multiplied by the number of 160-character SMS segments,
rounded up. -/
def calculateMessageCost (messageText : String) : Nat :=
  let baseCost := 1
  let lengthMultiplier := (messageText.length + 160 - 1) / 160
  baseCost * lengthMultiplier

/-- createSuccessResponse (lines 49-67): a SUCCESS response carrying
the vendor reference, the delivery time and the computed cost. -/
def createSuccessResponse (messagePayload : MessagePayload) (vendorMessageId : String)
    (now : Nat) : DeliveryResponse :=
  { status := "SUCCESS"
    vendor_ref := some vendorMessageId
    error_code := none
    error_message := none
    retryable := none
    delivered_at := some now
    failed_at := none
    cost := some (calculateMessageCost messagePayload.message_text) }

/-- A retryable FAILED vendor response (RATE_LIMITED), one of the
entries of createFailureResponse's taxonomy. -/
def rateLimitedResponse : DeliveryResponse :=
  { status := "FAILED"
    vendor_ref := some "vendor_1_ab"
    error_code := some "RATE_LIMITED"
    error_message := some "Rate limit exceeded"
    retryable := some true
    delivered_at := none
    failed_at := some 4
    cost := none }

/-- A concrete PENDING communication_log row. -/
def pendingLogEx : CommLog :=
  { communication_id := "c1"
    campaign_id := "g1"
    customer_id := "u1"
    customer_email := "a@b.c"
    customer_name := "A"
    message_text := "hello"
    status := CommStatus.PENDING
    attempts := 0
    max_attempts := 3
    created_at := 1
    last_attempt_at := none
    delivered_at := none
    vendor_ref := none }

/-- A concrete vendor-call payload. -/
def payloadEx : MessagePayload :=
  { communication_id := "c1"
    campaign_id := "g1"
    customer_id := "u1"
    customer_email := "a@b.c"
    customer_name := "A"
    message_text := "hello"
    attempt_number := 1
    max_attempts := 3 }

/-- A concrete SUCCESS response. -/
def successResponseEx : DeliveryResponse := createSuccessResponse payloadEx "vendor_7_beef" 11

/-- A concrete campaign_delivery_summary row. -/
def summaryEx : CampaignSummary :=
  { total_messages := 10
    pending_count := 4
    sent_count := 6
    delivered_count := 5
    failed_count := 1 }

/-- On the FAILED/ERROR path the computed status is PENDING exactly
when the item is retryable and under its attempt budget. -/
theorem computeUpdateData_status_failed (r : DeliveryResponse) (cur : CurrentLog) (now : Nat)
    (h : r.status = "FAILED" ∨ r.status = "ERROR") :
    (computeUpdateData r (some cur) now).status =
      if isRetryable r = true ∧ cur.attempts < cur.max_attempts then some CommStatus.PENDING
      else some CommStatus.FAILED := by
  have hns : (r.status == "SUCCESS") = false := by rcases h with h | h <;> simp [h]
  have hfe : (r.status == "FAILED" || r.status == "ERROR") = true := by
    rcases h with h | h <;> simp [h]
  by_cases hir : isRetryable r = true
  · by_cases hlt : cur.attempts < cur.max_attempts <;>
      simp [computeUpdateData, hns, hfe, hir, hlt]
  · simp only [Bool.not_eq_true] at hir
    simp [computeUpdateData, hns, hfe, hir]

/-- Claim C1: for a FAILED or ERROR outcome, the consumer sets the
WorkItem's status to PENDING exactly when the outcome is retryable and
the current attempts are below max_attempts, and to FAILED otherwise;
in particular attempts = max_attempts forces FAILED even for a
retryable outcome. -/
theorem failed_outcome_status_resolution (r : DeliveryResponse) (cur : CurrentLog) (now : Nat)
    (h : r.status = "FAILED" ∨ r.status = "ERROR") :
    ((computeUpdateData r (some cur) now).status = some CommStatus.PENDING ↔
      isRetryable r = true ∧ cur.attempts < cur.max_attempts)
    ∧ (isRetryable r = false ∨ cur.max_attempts ≤ cur.attempts →
        (computeUpdateData r (some cur) now).status = some CommStatus.FAILED)
    ∧ (cur.attempts = cur.max_attempts →
        (computeUpdateData r (some cur) now).status = some CommStatus.FAILED) := by
  have key := computeUpdateData_status_failed r cur now h
  refine ⟨?_, ?_, ?_⟩
  · rw [key]
    split_ifs with hc
    · simp [hc.1, hc.2]
    · exact iff_of_false (by simp) hc
  · intro h2
    rw [key]
    split_ifs with hc
    · rcases h2 with h2 | h2
      · rw [h2] at hc; exact absurd hc.1 (by simp)
      · exact absurd hc.2 (by omega)
    · rfl
  · intro heq
    rw [key]
    split_ifs with hc
    · exact absurd hc.2 (by omega)
    · rfl

/-- Witness for C1 at Scenario B: a retryable RATE_LIMITED failure for
an item whose attempts already reached max_attempts (3 of 3) resolves
to FAILED, not PENDING. -/
theorem failed_outcome_status_resolution_witness :
    (computeUpdateData rateLimitedResponse (some ⟨3, 3⟩) 9).status = some CommStatus.FAILED :=
  (failed_outcome_status_resolution rateLimitedResponse ⟨3, 3⟩ 9 (Or.inl rfl)).2.2 rfl

/-- Claim C4: a SUCCESS outcome updates the WorkItem to DELIVERED with
vendor_ref taken from the outcome and delivered_at from the outcome
when present, otherwise now; the receipt records status DELIVERED. -/
theorem success_outcome_resolution (r : DeliveryResponse) (currentLog : Option CurrentLog)
    (now : Nat) (h : r.status = "SUCCESS") :
    computeUpdateData r currentLog now =
      { vendor_ref := r.vendor_ref
        last_attempt_at := now
        status := some CommStatus.DELIVERED
        delivered_at := some (r.delivered_at.getD now) }
    ∧ ∀ (cid : String) (pAt : Option Nat),
        (createReceiptData cid r pAt now).receipt_status = "DELIVERED" := by
  have hs : (r.status == "SUCCESS") = true := by simp [h]
  constructor
  · cases hd : r.delivered_at <;> simp [computeUpdateData, hs, hd]
  · intro cid pAt
    simp [createReceiptData, hs]

/-- Witness for C4: a concrete SUCCESS response with delivered_at 11,
reconciled at time 12, yields a DELIVERED update stamped with the
outcome's own delivery time. -/
theorem success_outcome_resolution_witness :
    computeUpdateData successResponseEx none 12 =
      { vendor_ref := some "vendor_7_beef"
        last_attempt_at := 12
        status := some CommStatus.DELIVERED
        delivered_at := some 11 } :=
  ((success_outcome_resolution successResponseEx none 12 rfl).1).trans (by decide)

/-- Claim C7: a malformed outcome message — communication_id absent
(or empty) or delivery_response absent — makes processDeliveryResponse
throw before any database write (an `Except.error` carries no
ConsumerEffects), and the broker wrapper rejects it without re-queue. -/
theorem malformed_outcome_rejected (m : ResponseContent) (currentLog : Option CurrentLog)
    (now : Nat)
    (h : strTruthy m.communication_id = false ∨ m.delivery_response = none) :
    (∃ e, processDeliveryResponse m currentLog now = Except.error e)
    ∧ handleMessage (processDeliveryResponse m currentLog now) = AckAction.nack false false := by
  have herr : ∃ e, processDeliveryResponse m currentLog now = Except.error e := by
    by_cases ht : strTruthy m.communication_id = true
    · rcases h with h | h
      · rw [ht] at h; cases h
      · exact ⟨"Invalid response format: missing delivery_response",
          by simp [processDeliveryResponse, ht, h]⟩
    · simp only [Bool.not_eq_true] at ht
      exact ⟨"Invalid response format: missing communication_id",
        by simp [processDeliveryResponse, ht]⟩
  obtain ⟨e, he⟩ := herr
  exact ⟨⟨e, he⟩, by rw [he]; rfl⟩

/-- A malformed outcome message: no communication_id. -/
def malformedResponseEx : ResponseContent :=
  { communication_id := none
    campaign_id := some "g1"
    customer_id := none
    customer_email := none
    attempt_number := some 1
    delivery_response := none
    processed_at := none }

/-- Witness for C7: the concrete malformed message is nacked without
re-queue. -/
theorem malformed_outcome_rejected_witness :
    handleMessage (processDeliveryResponse malformedResponseEx none 3) =
      AckAction.nack false false :=
  (malformed_outcome_rejected malformedResponseEx none 3 (Or.inl rfl)).2

/-- Claim C10: a well-formed outcome whose status is none of SUCCESS,
FAILED, ERROR still updates vendor_ref and last_attempt_at, leaves
status (and delivered_at) untouched, creates a receipt with status
FAILED, and requests no counter update. -/
theorem unknown_status_outcome (m : ResponseContent) (r : DeliveryResponse)
    (currentLog : Option CurrentLog) (now : Nat)
    (hm : strTruthy m.communication_id = true) (hr : m.delivery_response = some r)
    (h1 : r.status ≠ "SUCCESS") (h2 : r.status ≠ "FAILED") (h3 : r.status ≠ "ERROR") :
    processDeliveryResponse m currentLog now =
      Except.ok
        { logUpdate :=
            { vendor_ref := r.vendor_ref
              last_attempt_at := now
              status := none
              delivered_at := none }
          receipt := createReceiptData (m.communication_id.getD "") r m.processed_at now
          stats := none }
    ∧ (createReceiptData (m.communication_id.getD "") r m.processed_at now).receipt_status =
        "FAILED" := by
  have hb1 : (r.status == "SUCCESS") = false := by simp [h1]
  have hb2 : (r.status == "FAILED" || r.status == "ERROR") = false := by simp [h2, h3]
  constructor
  · simp [processDeliveryResponse, hm, hr, computeUpdateData, statsAction, hb1, hb2]
  · simp [createReceiptData, hb1]

/-- A well-formed outcome message with an unrecognized response
status. -/
def unknownStatusResponseEx : ResponseContent :=
  { communication_id := some "c9"
    campaign_id := some "g1"
    customer_id := some "u1"
    customer_email := some "a@b.c"
    attempt_number := some 1
    delivery_response := some
      { status := "QUEUED"
        vendor_ref := some "vendor_2_cd"
        error_code := none
        error_message := none
        retryable := none
        delivered_at := none
        failed_at := none
        cost := none }
    processed_at := some 21 }

/-- Witness for C10: the concrete QUEUED outcome leaves status
untouched, keeps the vendor_ref, and requests no stats update. -/
theorem unknown_status_outcome_witness :
    processDeliveryResponse unknownStatusResponseEx none 22 =
      Except.ok
        { logUpdate :=
            { vendor_ref := some "vendor_2_cd"
              last_attempt_at := 22
              status := none
              delivered_at := none }
          receipt :=
            { communication_id := "c9"
              vendor_ref := some "vendor_2_cd"
              receipt_status := "FAILED"
              failure_reason := none
              received_at := 21
              processed := false }
          stats := none } := by
  have h := (unknown_status_outcome unknownStatusResponseEx
    { status := "QUEUED", vendor_ref := some "vendor_2_cd", error_code := none,
      error_message := none, retryable := none, delivered_at := none, failed_at := none,
      cost := none }
    none 22 rfl rfl (by decide) (by decide) (by decide)).1
  exact h.trans (congrArg Except.ok (by decide))

/-- Counterexample to C2: a retryable RATE_LIMITED failure for an item
with attempts 1 of 3 resets the WorkItem to PENDING for retry, yet the
consumer still requests the `failed` stats update, which changes the
campaign counters (failed_count, sent_count, pending_count,
total_failed all move). -/
theorem retry_reset_still_touches_counters :
    (computeUpdateData rateLimitedResponse (some ⟨1, 3⟩) 5).status = some CommStatus.PENDING
    ∧ statsAction rateLimitedResponse = some "failed"
    ∧ updateCampaignSummaryRow "failed" (some summaryEx) ≠ summaryEx
    ∧ (updateCampaignSummaryRow "failed" (some summaryEx)).failed_count =
        summaryEx.failed_count + 1
    ∧ (updateCampaignSummaryRow "failed" (some summaryEx)).pending_count =
        summaryEx.pending_count - 1
    ∧ (updateCampaignStatsRow "failed" (some ⟨3, 2, 1⟩)).total_failed = 2 := by
  decide

/-- Claim C2 (amended): counter updates are keyed to the outcome
status alone — every FAILED or ERROR outcome triggers the `failed`
counter update (failed_count and sent_count up, pending_count down,
total_failed up), even when the reconciliation resets the WorkItem to
PENDING for retry; every SUCCESS outcome triggers the `delivered`
counter update (delivered_count and sent_count up, pending_count down,
total_delivered up); only outcomes with some other status leave the
counters untouched. -/
theorem stats_keyed_on_outcome_status (r : DeliveryResponse)
    (h : r.status = "FAILED" ∨ r.status = "ERROR") :
    statsAction r = some "failed"
    ∧ (∀ s, updateCampaignSummaryRow "failed" (some s) =
        { s with
            failed_count := s.failed_count + 1
            sent_count := s.sent_count + 1
            pending_count := s.pending_count - 1 })
    ∧ (∀ s, updateCampaignStatsRow "failed" (some s) =
        { s with total_failed := s.total_failed + 1 })
    ∧ (∀ rs : DeliveryResponse, rs.status = "SUCCESS" → statsAction rs = some "delivered")
    ∧ (∀ s, updateCampaignSummaryRow "delivered" (some s) =
        { s with
            delivered_count := s.delivered_count + 1
            sent_count := s.sent_count + 1
            pending_count := s.pending_count - 1 })
    ∧ (∀ s, updateCampaignStatsRow "delivered" (some s) =
        { s with total_delivered := s.total_delivered + 1 })
    ∧ (∀ r2 : DeliveryResponse,
        r2.status ≠ "SUCCESS" → r2.status ≠ "FAILED" → r2.status ≠ "ERROR" →
          statsAction r2 = none) := by
  have hns : (r.status == "SUCCESS") = false := by rcases h with h | h <;> simp [h]
  have hfe : (r.status == "FAILED" || r.status == "ERROR") = true := by
    rcases h with h | h <;> simp [h]
  refine ⟨by simp [statsAction, hns, hfe], fun s => by simp [updateCampaignSummaryRow],
    fun s => by simp [updateCampaignStatsRow],
    fun rs hrs => by simp [statsAction, hrs],
    fun s => by simp [updateCampaignSummaryRow],
    fun s => by simp [updateCampaignStatsRow],
    fun r2 hx1 hx2 hx3 => ?_⟩
  have hb1 : (r2.status == "SUCCESS") = false := by simp [hx1]
  have hb2 : (r2.status == "FAILED" || r2.status == "ERROR") = false := by simp [hx2, hx3]
  simp [statsAction, hb1, hb2]

/-- Witness for the amended C2: the concrete retryable failure drives
the `failed` stats update and the concrete SUCCESS response drives the
`delivered` one. -/
theorem stats_keyed_on_outcome_status_witness :
    statsAction rateLimitedResponse = some "failed"
    ∧ statsAction successResponseEx = some "delivered" :=
  ⟨(stats_keyed_on_outcome_status rateLimitedResponse (Or.inl rfl)).1,
    (stats_keyed_on_outcome_status rateLimitedResponse (Or.inl rfl)).2.2.2.1
      successResponseEx rfl⟩

/-- Claim C3: under any sequence of producer fetches and consumer
reconciliations, `attempts ≤ max_attempts` is invariant — the fetch is
guarded by attempts < max_attempts and adds exactly one, and a
reconciliation never changes attempts or max_attempts. -/
theorem bounded_attempts_invariant (w w' : CommLog)
    (h : Relation.ReflTransGen Step w w') (h0 : w.attempts ≤ w.max_attempts) :
    w'.attempts ≤ w'.max_attempts
    ∧ (∀ (v : CommLog) (now : Nat), (markProcessing v now).attempts = v.attempts + 1)
    ∧ (∀ (v : CommLog) (u : UpdateData), (applyUpdate v u).attempts = v.attempts
        ∧ (applyUpdate v u).max_attempts = v.max_attempts) := by
  refine ⟨?_, fun v now => rfl, fun v u => ⟨rfl, rfl⟩⟩
  induction h with
  | refl => exact h0
  | tail _ hstep ih =>
      cases hstep with
      | producerFetch now hs ha => simpa [markProcessing] using ha
      | consumerReconcile r now => simpa [applyUpdate] using ih

/-- Witness for C3: one producer fetch of a fresh item (attempts 0 of
3) keeps the invariant. -/
theorem bounded_attempts_invariant_witness :
    (markProcessing pendingLogEx 7).attempts ≤ (markProcessing pendingLogEx 7).max_attempts :=
  (bounded_attempts_invariant pendingLogEx (markProcessing pendingLogEx 7)
    (Relation.ReflTransGen.single (Step.producerFetch pendingLogEx 7 rfl (by decide)))
    (by decide)).1

/-- Claim C5: in the trace of processMessageDelivery the database
update that marks the item PROCESSING (incrementing attempts and
stamping last_attempt_at) is the first step and precedes the vendor
call, and at the vendor call the stored row is PROCESSING — not
PENDING — with attempts already incremented. -/
theorem marked_processing_before_vendor_call (w : CommLog) (r : DeliveryResponse) (now : Nat) :
    ((processMessageDeliverySteps w r now).map Prod.fst).take 2 =
      [PEvent.dbUpdate, PEvent.vendorCall]
    ∧ ∀ s, (PEvent.vendorCall, s) ∈ processMessageDeliverySteps w r now →
        s.status = CommStatus.PROCESSING ∧ s.status ≠ CommStatus.PENDING
        ∧ s.attempts = w.attempts + 1 ∧ s.last_attempt_at = some now := by
  refine ⟨rfl, fun s hs => ?_⟩
  simp only [processMessageDeliverySteps, List.mem_cons, List.not_mem_nil, or_false,
    Prod.mk.injEq] at hs
  rcases hs with ⟨h1, _⟩ | ⟨_, h2⟩ | ⟨h3, _⟩
  · cases h1
  · subst h2; simp [markProcessing]
  · cases h3

/-- Witness for C5: the concrete item observed at the vendor call is
PROCESSING with attempts 1. -/
theorem marked_processing_before_vendor_call_witness :
    (markProcessing pendingLogEx 3).status = CommStatus.PROCESSING
    ∧ (markProcessing pendingLogEx 3).status ≠ CommStatus.PENDING
    ∧ (markProcessing pendingLogEx 3).attempts = pendingLogEx.attempts + 1
    ∧ (markProcessing pendingLogEx 3).last_attempt_at = some 3 :=
  (marked_processing_before_vendor_call pendingLogEx rateLimitedResponse 3).2
    (markProcessing pendingLogEx 3) (by decide)

/-- Counterexample to C6: the delivery_response the producer's error
path publishes carries status ERROR and code SYSTEM_ERROR but no
retryable field at all — retryable is absent, not true. -/
theorem system_error_response_lacks_retryable_flag :
    ∃ d, (mkFailedResponseData pendingLogEx "connect ECONNREFUSED" 42).delivery_response = some d
      ∧ d.status = "ERROR" ∧ d.error_code = some "SYSTEM_ERROR"
      ∧ d.retryable = none ∧ d.retryable ≠ some true :=
  ⟨_, rfl, rfl, rfl, rfl, by decide⟩

/-- Claim C6 (amended): when processing an item throws, the producer
publishes an outcome whose delivery_response has status ERROR and
error_code SYSTEM_ERROR with no retryable flag; the consumer's
retryability test nevertheless classifies it retryable (via its
ERROR-with-SYSTEM_ERROR clause), so the standard retry path applies. -/
theorem system_error_retry_path (w : CommLog) (errMessage : String) (now : Nat) :
    ∃ d, (mkFailedResponseData w errMessage now).delivery_response = some d
      ∧ d.status = "ERROR" ∧ d.error_code = some "SYSTEM_ERROR"
      ∧ d.retryable = none ∧ isRetryable d = true :=
  ⟨_, rfl, rfl, rfl, rfl, rfl⟩

/-- Claim C8: a producer fetch returns at most batchSize (10) items,
each PENDING with attempts < max_attempts, sorted by created_at
ascending, and the manual trigger runs the identical query. -/
theorem fetch_batch_spec (db : List CommLog) :
    (findPendingMessages db).length ≤ 10
    ∧ (∀ w ∈ findPendingMessages db,
        w.status = CommStatus.PENDING ∧ w.attempts < w.max_attempts)
    ∧ List.Sorted createdLE (findPendingMessages db)
    ∧ triggerProcessingFetch db = findPendingMessages db := by
  refine ⟨?_, ?_, ?_, rfl⟩
  · simp only [findPendingMessages, batchSize]
    exact List.length_take_le 10 (List.insertionSort createdLE (db.filter pendingFilter))
  · intro w hw
    have h1 : w ∈ List.insertionSort createdLE (db.filter pendingFilter) :=
      List.take_subset _ _ hw
    have h2 : w ∈ db.filter pendingFilter := (List.mem_insertionSort createdLE).mp h1
    have h3 := (List.mem_filter.mp h2).2
    simpa [pendingFilter] using h3
  · have hs : List.Sorted createdLE (List.insertionSort createdLE (db.filter pendingFilter)) :=
      List.sorted_insertionSort createdLE (db.filter pendingFilter)
    exact List.Pairwise.sublist (List.take_sublist _ _) hs

/-- Witness for C8: in a one-row database holding the concrete PENDING
item, the fetched batch contains it and it satisfies the filter. -/
theorem fetch_batch_spec_witness :
    pendingLogEx.status = CommStatus.PENDING
    ∧ pendingLogEx.attempts < pendingLogEx.max_attempts :=
  (fetch_batch_spec [pendingLogEx]).2.1 pendingLogEx (by decide)

/-- A 160-character message text. -/
def str160 : String := String.mk (List.replicate 160 'a')

/-- Claim C9: the SUCCESS response's cost equals
calculateMessageCost of the message text, and that cost is the number
of 160-character segments rounded up times the base unit cost 1:
it is the least n with length ≤ 160·n, a 160-character message costs
1 unit and a 161-character one costs 2. -/
theorem success_response_cost (p : MessagePayload) (vendorMessageId : String) (now : Nat) :
    (createSuccessResponse p vendorMessageId now).cost =
      some (calculateMessageCost p.message_text)
    ∧ (∀ (s : String) (n : Nat), calculateMessageCost s ≤ n ↔ s.length ≤ 160 * n)
    ∧ (∀ s : String, s.length = 160 → calculateMessageCost s = 1)
    ∧ (∀ s : String, s.length = 161 → calculateMessageCost s = 2) := by
  refine ⟨rfl, fun s n => ?_, fun s h => ?_, fun s h => ?_⟩
  · simp only [calculateMessageCost]
    omega
  · simp only [calculateMessageCost]
    omega
  · simp only [calculateMessageCost]
    omega

/-- Witness for C9: the concrete 160-character message costs exactly
one unit. -/
theorem success_response_cost_witness : calculateMessageCost str160 = 1 :=
  (success_response_cost payloadEx "v" 0).2.2.1 str160 (by rw [str160]; simp [String.length])
